import Mathlib

/-!
Verification of the query-execution, caching and identity-resolution
subsystem of the usage-analytics dashboard (`app/app.py`).

The Python source is shallowly embedded: each backend call the code makes
(`get_query_execution`, `get_query_results`, `get_tables`, `describe_user`)
is a function parameter, exceptions become `Except`, Python `dict.get`
becomes `Option`, and the unbounded `while True` poll loop is given an
explicit fuel argument (returning `Option.none` when fuel runs out, which
models "still polling").
-/

/-! ## Result decoding (`fetch_data`, lines 180-185) -/

/-- One cell of a raw Athena result row: `field.get('VarCharValue', '')`.
An absent or null cell is `Option.none`. -/
structure Datum where
  varCharValue : Option String
deriving DecidableEq, Repr

/-- One raw Athena result row: `row['Data']`. -/
structure RawRow where
  data : List Datum
deriving DecidableEq, Repr

/-- One entry of `ResultSetMetadata.ColumnInfo`. -/
structure ColInfo where
  label : String
deriving DecidableEq, Repr

/-- The raw Athena result: `result['ResultSet']`. -/
structure ResultSet where
  columnInfo : List ColInfo
  rows : List RawRow
deriving DecidableEq, Repr

/-- Decoding of a single raw row, as in the loop body of `fetch_data`:
`[field.get('VarCharValue', '') for field in row['Data']]`. -/
def decodeRow (r : RawRow) : List String :=
  r.data.map (fun f => f.varCharValue.getD "")

/-- The row part of `fetch_data`'s decode step:
`for row in result['ResultSet']['Rows'][1:]`. -/
def decodeRows (rs : ResultSet) : List (List String) :=
  (rs.rows.drop 1).map decodeRow

/-- The column part of `fetch_data`'s decode step:
`[col['Label'] for col in result['ResultSet']['ResultSetMetadata']['ColumnInfo']]`. -/
def decodeColumns (rs : ResultSet) : List String :=
  rs.columnInfo.map (fun c => c.label)

/-! ## Value coercion (`safe_float`, `safe_int`, lines 226-236) -/

/-- The Python values the coercion helpers receive. -/
inductive PyVal where
  | none
  | bool (b : Bool)
  | int (n : ℤ)
  | float (q : ℚ)
  | str (s : String)
deriving DecidableEq, Repr

/-- Python truthiness of a value (`if val`). -/
def pyTruthy : PyVal → Bool
  | PyVal.none => false
  | PyVal.bool b => b
  | PyVal.int n => n ≠ 0
  | PyVal.float q => q ≠ 0
  | PyVal.str s => s ≠ ""

/-- Python `str(val)`.  For floats the exact Python repr is not reproduced
(the embedding prints `num.0` or `num/den`); the coercion helpers only ever
compare this string against `""` and `"None"`, and no float repr (Python's
or this one) ever equals those, so the branch behaviour is unaffected. -/
def pyStr : PyVal → String
  | PyVal.none => "None"
  | PyVal.bool b => if b then "True" else "False"
  | PyVal.int n => toString n
  | PyVal.float q => if q.den = 1 then toString q.num ++ ".0" else toString q
  | PyVal.str s => s

/-- Python `str.strip()`: whitespace removed from both ends.  Implemented
by structural recursion on the character list so that concrete instances
reduce definitionally. -/
def pyStrip (s : String) : String :=
  ⟨((s.data.dropWhile Char.isWhitespace).reverse.dropWhile Char.isWhitespace).reverse⟩

/-- Digit list to number, most significant first. -/
def digitsToNat (ds : List Char) : ℕ :=
  ds.foldl (fun a c => a * 10 + (c.toNat - 48)) 0

/-- Python `float(s)` on a string, modelled for plain decimal literals:
optional sign, digits, optional fractional part, surrounding whitespace
stripped.  Exponents, `inf`/`nan` and digit underscores are not modelled;
every claim input is a plain decimal or fails to parse in both semantics. -/
def pyParseFloat (s : String) : Option ℚ :=
  let t := (pyStrip s).data
  let signed : Bool × List Char :=
    match t with
    | '-' :: r => (true, r)
    | '+' :: r => (false, r)
    | r => (false, r)
  let intPart := signed.2.takeWhile Char.isDigit
  let rest := signed.2.dropWhile Char.isDigit
  let mag : Option ℚ :=
    match rest with
    | [] => if intPart.isEmpty then Option.none else some (mkRat (digitsToNat intPart) 1)
    | '.' :: frac =>
      if frac.all Char.isDigit ∧ ¬(intPart.isEmpty ∧ frac.isEmpty) then
        some (mkRat (digitsToNat intPart * 10 ^ frac.length + digitsToNat frac) (10 ^ frac.length))
      else Option.none
    | _ => Option.none
  mag.map (fun q => if signed.1 then -q else q)

/-- Python `float(val)`: `TypeError` on `None`, numeric promotion on
booleans and numbers, string parsing otherwise.  `Option.none` models the
raised exception. -/
def pyFloat : PyVal → Option ℚ
  | PyVal.none => Option.none
  | PyVal.bool b => some (if b then 1 else 0)
  | PyVal.int n => some (n : ℚ)
  | PyVal.float q => some q
  | PyVal.str s => pyParseFloat s

/-- Python `int(q)` on a float: truncation toward zero. -/
def intTrunc (q : ℚ) : ℤ :=
  q.num.tdiv q.den

/-- The guard shared by both helpers:
`val and str(val).strip() not in ('', 'None')`. -/
def coerceGuard (val : PyVal) : Bool :=
  pyTruthy val && pyStrip (pyStr val) ≠ "" && pyStrip (pyStr val) ≠ "None"

/-- `safe_float(val, default)` from the source: returns `float(val)` when
the guard passes and parsing succeeds, the default otherwise (the `except`
clause turns any parse failure into the default). -/
def safe_float (val : PyVal) (default : ℚ := 0) : ℚ :=
  if coerceGuard val then (pyFloat val).getD default else default

/-- `safe_int(val, default)` from the source: `int(float(val))` when the
guard passes and parsing succeeds, the default otherwise. -/
def safe_int (val : PyVal) (default : ℤ := 0) : ℤ :=
  if coerceGuard val then
    match pyFloat val with
    | some q => intTrunc q
    | Option.none => default
  else default

/-! ## Query execution (`execute_athena_query`, lines 157-174) -/

/-- The part of a `get_query_execution` response the code reads:
`QueryExecution.Status.State` and the optional
`QueryExecution.Status.StateChangeReason`. -/
structure StatusResp where
  state : String
  stateChangeReason : Option String
deriving DecidableEq, Repr

/-- The loop's break condition: `status in ['SUCCEEDED', 'FAILED', 'CANCELLED']`. -/
def isTerminal (r : StatusResp) : Bool :=
  r.state = "SUCCEEDED" || r.state = "FAILED" || r.state = "CANCELLED"

/-- One observable event of the poll loop: a `get_query_execution` call for
the k-th time, or a `time.sleep(1)`. -/
inductive Ev where
  | poll (k : ℕ)
  | sleep
deriving DecidableEq, Repr

/-- The `while True` poll loop of `execute_athena_query`, with the backend's
successive `get_query_execution` responses given as the stream `s` (the i-th
poll observes `s i`).  The loop is unbounded in the source; `fuel` bounds the
embedding, and `Option.none` means the loop is still polling after `fuel`
iterations.  On termination it returns the total number of polls performed
and the final (terminal) response. -/
def pollLoop (s : ℕ → StatusResp) : ℕ → ℕ → Option (ℕ × StatusResp)
  | _, 0 => Option.none
  | i, fuel + 1 =>
    if isTerminal (s i) then some (i + 1, s i)
    else pollLoop s (i + 1) fuel

/-- The event trace of the poll loop: each iteration polls once, and sleeps
exactly when the observed status is not terminal (the `time.sleep(1)` sits
after the break test, so no sleep follows the final poll). -/
def pollTrace (s : ℕ → StatusResp) : ℕ → ℕ → List Ev
  | _, 0 => []
  | i, fuel + 1 =>
    if isTerminal (s i) then [Ev.poll i]
    else Ev.poll i :: Ev.sleep :: pollTrace s (i + 1) fuel

/-- Trace demanded by the spec text: a status check for each of polls
`i, i+1, ..., i+n`, with one sleep between every pair of consecutive
checks and none after the last. -/
def specTrace (i : ℕ) : ℕ → List Ev
  | 0 => [Ev.poll i]
  | n + 1 => Ev.poll i :: Ev.sleep :: specTrace (i + 1) n

/-- Classification after the loop (lines 171-174): return the query id on
`SUCCEEDED`, otherwise raise
`Exception(f"Query failed: \x7berror_msg\x7d")` where `error_msg` is the
final response's `StateChangeReason` or the `'Unknown error'` fallback. -/
def classifyResult (qid : String) (r : StatusResp) : Except String String :=
  if r.state = "SUCCEEDED" then Except.ok qid
  else Except.error ("Query failed: " ++ r.stateChangeReason.getD "Unknown error")

/-- `execute_athena_query`: submission yields `qid`, then the poll loop runs
to a terminal state and the result is classified.  `Option.none` propagates
"still polling". -/
def execute_athena_query (qid : String) (s : ℕ → StatusResp) (fuel : ℕ) :
    Option (Except String String) :=
  (pollLoop s 0 fuel).map (fun p => classifyResult qid p.2)

/-- `fetch_data` (lines 176-185): execute the query, then — only when
execution returned a query id, i.e. the terminal state was `SUCCEEDED` —
call `get_query_results` and decode.  The boolean records whether the
results were fetched.  The raw result set is the response
`get_query_results` would give. -/
def fetch_data (qid : String) (s : ℕ → StatusResp) (raw : ResultSet) (fuel : ℕ) :
    Option (Except String (List String × List (List String)) × Bool) :=
  match execute_athena_query qid s fuel with
  | Option.none => Option.none
  | some (Except.error e) => some (Except.error e, false)
  | some (Except.ok _) => some (Except.ok (decodeColumns raw, decodeRows raw), true)

/-! ## Identity resolution (`get_username`, `get_usernames_batch`, lines 141-155) -/

/-- One entry of a `describe_user` response's `Emails` list; the code reads
`.get('Value')`. -/
structure EmailEntry where
  value : Option String
deriving DecidableEq, Repr

/-- The fields of a `describe_user` response the code reads. `Option.none`
for `emails` models an absent `Emails` key (the code substitutes `[\x7b\x7d]`). -/
structure UserResp where
  userName : Option String
  displayName : Option String
  emails : Option (List EmailEntry)
deriving DecidableEq, Repr

/-- Python `a or b` on an optional string: `a` when present and truthy
(non-empty), otherwise `b`. -/
def pyOrStr (a : Option String) (b : String) : String :=
  match a with
  | some s => if s = "" then b else s
  | Option.none => b

/-- The email fallback `response.get('Emails', [\x7b\x7d])[0].get('Value')`:
absent key defaults to a one-empty-dict list whose first entry has no
value; an empty present list raises `IndexError`, which the surrounding
`except` turns into the identifier fallback. -/
def firstEmailValue (es : Option (List EmailEntry)) : Except Unit (Option String) :=
  match es with
  | Option.none => Except.ok Option.none
  | some [] => Except.error ()
  | some (e :: _) => Except.ok e.value

/-- `get_username`: pass-through when `IDENTITY_STORE_ID` is falsy (the
empty string models an unset variable), checked before any network call;
otherwise one `describe_user` call, whose outcome is the parameter
`describeUser`, with the `UserName or DisplayName or Emails[0].Value or
userid` chain, and any exception caught to the identifier itself.  The
second component counts the network calls made. -/
def get_username (identityStoreId : String) (describeUser : String → Except Unit UserResp)
    (userid : String) : String × ℕ :=
  if identityStoreId = "" then (userid, 0)
  else
    match describeUser userid with
    | Except.error _ => (userid, 1)
    | Except.ok r =>
      if r.userName.getD "" ≠ "" then (r.userName.getD "", 1)
      else if r.displayName.getD "" ≠ "" then (r.displayName.getD "", 1)
      else
        match firstEmailValue r.emails with
        | Except.error _ => (userid, 1)
        | Except.ok v => (pyOrStr v userid, 1)

/-- `get_usernames_batch`: the dict comprehension
`\x7buid: get_username(uid) for uid in userids\x7d` — pointwise single
resolution, no bulk backend call.  The second component totals the network
calls, which is exactly the sum of the per-identifier single-call counts. -/
def get_usernames_batch (identityStoreId : String)
    (describeUser : String → Except Unit UserResp) (userids : List String) :
    List (String × String) × ℕ :=
  (userids.map (fun uid => (uid, (get_username identityStoreId describeUser uid).1)),
   (userids.map (fun uid => (get_username identityStoreId describeUser uid).2)).sum)

/-! ## Table-name resolution (`resolve_table_name`, lines 124-139) -/

/-- One entry of a `get_tables` response's `TableList`. -/
structure GlueTable where
  name : String
deriving DecidableEq, Repr

/-- The message of the exception raised when no table can be resolved (the
source interpolates the database name into it). -/
def noTablesMsg (database : String) : String :=
  "No tables found in Glue database " ++ database ++
    ". Run the Glue crawler first, or set GLUE_TABLE_NAME in .env."

/-- `resolve_table_name`: the `GLUE_TABLE_NAME` override (empty string
models unset) is returned first with no backend call; otherwise one
`get_tables` call with `MaxResults=1` — its argument is recorded in the
returned call list — and the first listed table's name is returned.  An
empty listing and a listing exception both fall through to the same raised
message. -/
def resolve_table_name (glueTableName database : String)
    (getTables : ℕ → Except Unit (List GlueTable)) :
    Except String String × List ℕ :=
  if glueTableName ≠ "" then (Except.ok glueTableName, [])
  else
    match getTables 1 with
    | Except.ok (t :: _) => (Except.ok t.name, [1])
    | Except.ok [] => (Except.error (noTablesMsg database), [1])
    | Except.error _ => (Except.error (noTablesMsg database), [1])

/-! ## TTL cache (`st.cache_data`, used at lines 124, 141, 153, 176) -/

/-- State of one cache entry: the stored value and its insertion time, or
nothing.  Modelled from the spec: the `st.cache_data` decorator itself is
library code outside the repository; §3 CacheEntry and §4.5 CacheLayer
define the contract (stale when `now - inserted_at > ttl`, lazy expiry). -/
structure CacheState (α : Type) where
  entry : Option (α × ℕ)

/-- Modelled from the spec: `CacheLayer.get` for one key — return the
cached value when present and not stale, otherwise invoke the producer,
store the result with the current timestamp and return it.  The last
component counts producer invocations (0 or 1). -/
def cacheGet {α : Type} (ttl now : ℕ) (producer : Unit → α) (st : CacheState α) :
    α × CacheState α × ℕ :=
  match st.entry with
  | some (v, t0) =>
    if now - t0 > ttl then
      let v' := producer ()
      (v', ⟨some (v', now)⟩, 1)
    else (v, st, 0)
  | Option.none =>
    let v := producer ()
    (v, ⟨some (v, now)⟩, 1)

/-! ## Concrete instances used by witnesses and counterexamples -/

/-- The C1 scenario: the status call answers `SUBMITTED` once, `RUNNING`
twice, then `SUCCEEDED` forever. -/
def c1Status : ℕ → StatusResp := fun n =>
  if n = 0 then ⟨"SUBMITTED", Option.none⟩
  else if n ≤ 2 then ⟨"RUNNING", Option.none⟩
  else ⟨"SUCCEEDED", Option.none⟩

/-- A failing execution: `RUNNING` once, then `FAILED` with a stated reason. -/
def c2Status : ℕ → StatusResp := fun n =>
  if n = 0 then ⟨"RUNNING", Option.none⟩
  else ⟨"FAILED", some "Syntax error in SQL"⟩

/-- A raw result set with a header row, two data rows and one null cell. -/
def rsDemo : ResultSet :=
  ⟨[⟨"day"⟩, ⟨"user_count"⟩],
   [⟨[⟨some "day"⟩, ⟨some "user_count"⟩]⟩,
    ⟨[⟨some "2024-01-01"⟩, ⟨Option.none⟩]⟩,
    ⟨[⟨some "2024-01-02"⟩, ⟨some "5"⟩]⟩]⟩

/-- A directory entry carrying a username. -/
def userRespDemo : UserResp := ⟨some "alice", Option.none, Option.none⟩

/-- A directory lookup that succeeds with `userRespDemo`. -/
def lookupOkDemo : String → Except Unit UserResp := fun _ => Except.ok userRespDemo

/-- A directory lookup that raises on every identifier. -/
def lookupErrDemo : String → Except Unit UserResp := fun _ => Except.error ()

/-- A Glue listing with one table. -/
def tablesOkDemo : ℕ → Except Unit (List GlueTable) := fun _ => Except.ok [⟨"kiro_usage"⟩]

/-- A Glue listing that succeeds with zero tables. -/
def tablesEmptyDemo : ℕ → Except Unit (List GlueTable) := fun _ => Except.ok []

/-- A Glue listing that raises. -/
def tablesErrDemo : ℕ → Except Unit (List GlueTable) := fun _ => Except.error ()

/-- A producer for the cache witness. -/
def prodDemo : Unit → ℕ := fun _ => 42

/-! ## Theorems -/

/-- When the first terminal response sits at index `n` of the status
stream, the loop stops right there with `n + 1` polls, for every
sufficiently large fuel — the source loop has no other exit. -/
theorem pollLoop_eq (s : ℕ → StatusResp) :
    ∀ n i fuel, (∀ j, j < n → isTerminal (s (i + j)) = false) →
      isTerminal (s (i + n)) = true → n < fuel →
      pollLoop s i fuel = some (i + n + 1, s (i + n)) := by
  intro n
  induction n with
  | zero =>
    intro i fuel hpre hterm hfuel
    cases fuel with
    | zero => omega
    | succ f =>
      rw [Nat.add_zero] at hterm
      simp [pollLoop, hterm]
  | succ n ih =>
    intro i fuel hpre hterm hfuel
    cases fuel with
    | zero => omega
    | succ f =>
      have h0 : isTerminal (s i) = false := by
        have h := hpre 0 (Nat.succ_pos n)
        simpa using h
      have hpre' : ∀ j, j < n → isTerminal (s (i + 1 + j)) = false := by
        intro j hj
        have h := hpre (j + 1) (by omega)
        have e : i + (j + 1) = i + 1 + j := by omega
        rwa [e] at h
      have hterm' : isTerminal (s (i + 1 + n)) = true := by
        have e : i + (n + 1) = i + 1 + n := by omega
        rwa [e] at hterm
      have e : i + (n + 1) = i + 1 + n := by omega
      rw [e]
      simpa [pollLoop, h0] using ih (i + 1) f hpre' hterm' (by omega)

/-- Under the same conditions the event trace is exactly the spec trace:
one status check per poll with a single sleep between each consecutive
pair and no sleep after the terminal check. -/
theorem pollTrace_eq (s : ℕ → StatusResp) :
    ∀ n i fuel, (∀ j, j < n → isTerminal (s (i + j)) = false) →
      isTerminal (s (i + n)) = true → n < fuel →
      pollTrace s i fuel = specTrace i n := by
  intro n
  induction n with
  | zero =>
    intro i fuel hpre hterm hfuel
    cases fuel with
    | zero => omega
    | succ f =>
      rw [Nat.add_zero] at hterm
      simp [pollTrace, specTrace, hterm]
  | succ n ih =>
    intro i fuel hpre hterm hfuel
    cases fuel with
    | zero => omega
    | succ f =>
      have h0 : isTerminal (s i) = false := by
        have h := hpre 0 (Nat.succ_pos n)
        simpa using h
      have hpre' : ∀ j, j < n → isTerminal (s (i + 1 + j)) = false := by
        intro j hj
        have h := hpre (j + 1) (by omega)
        have e : i + (j + 1) = i + 1 + j := by omega
        rwa [e] at h
      have hterm' : isTerminal (s (i + 1 + n)) = true := by
        have e : i + (n + 1) = i + 1 + n := by omega
        rwa [e] at hterm
      simpa [pollTrace, specTrace, h0] using ih (i + 1) f hpre' hterm' (by omega)

/-- C1 counterexample: on the stated scenario stream (`SUBMITTED` once,
`RUNNING` twice, `SUCCEEDED` next) the loop observes every one of the four
reported statuses with its own `get_query_execution` call, so it performs
4 status polls before results can be fetched, not the claimed 3. -/
theorem execute_poll_count_cex :
    pollLoop c1Status 0 10 = some (4, ⟨"SUCCEEDED", Option.none⟩) ∧ (4 : ℕ) ≠ 3 := by
  constructor
  · decide
  · decide

/-- C1 amended: when the backend's poll responses are `SUBMITTED` once,
`RUNNING` twice, then `SUCCEEDED`, `execute_athena_query` performs exactly
4 status polls (one per reported status, the terminal one included) before
fetching results; stated generally, a stream whose first terminal response
sits at index `n` yields exactly `n + 1` polls — for every `n`, so no
maximum attempt count or timeout bounds the loop — and the event trace
sleeps a fixed 1-unit interval between every pair of consecutive status
checks, with no sleep after the terminal check. -/
theorem execute_polling_amended (s : ℕ → StatusResp) (n fuel : ℕ)
    (hpre : ∀ j, j < n → isTerminal (s j) = false)
    (hterm : isTerminal (s n) = true) (hfuel : n < fuel) :
    pollLoop s 0 fuel = some (n + 1, s n) ∧ pollTrace s 0 fuel = specTrace 0 n := by
  have hpre' : ∀ j, j < n → isTerminal (s (0 + j)) = false := by
    intro j hj
    simpa using hpre j hj
  have hterm' : isTerminal (s (0 + n)) = true := by simpa using hterm
  constructor
  · simpa using pollLoop_eq s n 0 fuel hpre' hterm' hfuel
  · simpa using pollTrace_eq s n 0 fuel hpre' hterm' hfuel

/-- Witness for the amended C1 theorem at the scenario stream: 4 polls and
the poll/sleep/poll/sleep/poll/sleep/poll trace. -/
theorem execute_polling_amended_witness :
    pollLoop c1Status 0 10 = some (4, c1Status 3) ∧
      pollTrace c1Status 0 10 = specTrace 0 3 :=
  execute_polling_amended c1Status 3 10 (by decide) (by decide) (by decide)

/-- C2: once the poll loop ends on `FAILED` or `CANCELLED`,
`execute_athena_query` raises; the message extends the backend's stated
reason verbatim when one is present and is the fixed
`"Query failed: Unknown error"` fallback when the backend omits it, and
`fetch_data` propagates the failure without fetching results; results are
fetched exactly when the terminal state is `SUCCEEDED`. -/
theorem execute_failure_spec (qid : String) (s : ℕ → StatusResp) (raw : ResultSet)
    (n fuel : ℕ) (hpre : ∀ j, j < n → isTerminal (s j) = false)
    (hterm : isTerminal (s n) = true) (hfuel : n < fuel) :
    ((s n).state = "FAILED" ∨ (s n).state = "CANCELLED" →
      ∃ msg, execute_athena_query qid s fuel = some (Except.error msg) ∧
        fetch_data qid s raw fuel = some (Except.error msg, false) ∧
        (∀ reason, (s n).stateChangeReason = some reason → ∃ p, msg = p ++ reason) ∧
        ((s n).stateChangeReason = Option.none → msg = "Query failed: Unknown error")) ∧
    ((s n).state = "SUCCEEDED" →
      execute_athena_query qid s fuel = some (Except.ok qid) ∧
      fetch_data qid s raw fuel = some (Except.ok (decodeColumns raw, decodeRows raw), true)) := by
  have hpre' : ∀ j, j < n → isTerminal (s (0 + j)) = false := by
    intro j hj
    simpa using hpre j hj
  have hterm' : isTerminal (s (0 + n)) = true := by simpa using hterm
  have hloop : pollLoop s 0 fuel = some (n + 1, s n) := by
    simpa using pollLoop_eq s n 0 fuel hpre' hterm' hfuel
  constructor
  · intro hstate
    have hns : ¬((s n).state = "SUCCEEDED") := by
      rcases hstate with h | h <;> rw [h] <;> decide
    refine ⟨"Query failed: " ++ (s n).stateChangeReason.getD "Unknown error", ?_, ?_, ?_, ?_⟩
    · simp [execute_athena_query, hloop, classifyResult, hns]
    · simp [fetch_data, execute_athena_query, hloop, classifyResult, hns]
    · intro reason hr
      exact ⟨"Query failed: ", by simp [hr]⟩
    · intro hr
      simp [hr]
  · intro hstate
    constructor
    · simp [execute_athena_query, hloop, classifyResult, hstate]
    · simp [fetch_data, execute_athena_query, hloop, classifyResult, hstate]

/-- Witness for C2 at the scenario stream that reports `RUNNING` once and
then `FAILED` with reason `"Syntax error in SQL"`: the raised message
contains that exact reason string, and no results are fetched. -/
theorem execute_failure_spec_witness :
    ∃ msg, execute_athena_query "qid-1" c2Status 5 = some (Except.error msg) ∧
      fetch_data "qid-1" c2Status rsDemo 5 = some (Except.error msg, false) ∧
      (∃ p, msg = p ++ "Syntax error in SQL") := by
  have h := (execute_failure_spec "qid-1" c2Status rsDemo 1 5 (by decide) (by decide)
    (by decide)).1 (Or.inl (by decide))
  obtain ⟨msg, h1, h2, h3, _⟩ := h
  exact ⟨msg, h1, h2, h3 "Syntax error in SQL" rfl⟩

/-- C3: for a raw result with `N` rows the decode step returns exactly
`N - 1` data rows; the row at index `i` of the output is the decode of the
raw row at index `i + 1`, so only the header row at index 0 is skipped;
column labels are kept at their original positions; and a cell whose
`VarCharValue` is absent decodes to the empty string. -/
theorem decode_spec (rs : ResultSet) :
    (decodeRows rs).length = rs.rows.length - 1 ∧
    (∀ i (h : i + 1 < rs.rows.length),
      (decodeRows rs).get ⟨i, by simp [decodeRows]; omega⟩ =
        decodeRow (rs.rows.get ⟨i + 1, h⟩)) ∧
    ((decodeColumns rs).length = rs.columnInfo.length ∧
      ∀ i (h : i < rs.columnInfo.length),
        (decodeColumns rs).get ⟨i, by simpa [decodeColumns] using h⟩ =
          (rs.columnInfo.get ⟨i, h⟩).label) ∧
    (∀ (r : RawRow) (j : ℕ) (h : j < r.data.length),
      (r.data.get ⟨j, h⟩).varCharValue = Option.none →
        (decodeRow r).get ⟨j, by simpa [decodeRow] using h⟩ = "") := by
  refine ⟨?_, ?_, ⟨?_, ?_⟩, ?_⟩
  · simp [decodeRows]
  · intro i h
    simp only [decodeRows, List.get_eq_getElem, List.getElem_map, List.getElem_drop]
    congr 1
    congr 1
    omega
  · simp [decodeColumns]
  · intro i h
    simp only [decodeColumns, List.get_eq_getElem, List.getElem_map]
  · intro r j h hnone
    rw [List.get_eq_getElem] at hnone
    simp only [decodeRow, List.get_eq_getElem, List.getElem_map]
    simp [hnone]

/-- Witness for C3 at `rsDemo` (a header row plus two data rows, one null
cell): two decoded rows, the first output row is the decode of raw row 1,
and the null cell decodes to the empty string. -/
theorem decode_spec_witness :
    (decodeRows rsDemo).length = rsDemo.rows.length - 1 ∧
    (decodeRows rsDemo).get ⟨0, by decide⟩ = decodeRow (rsDemo.rows.get ⟨1, by decide⟩) ∧
    (decodeRow (rsDemo.rows.get ⟨1, by decide⟩)).get ⟨1, by decide⟩ = "" := by
  refine ⟨(decode_spec rsDemo).1, (decode_spec rsDemo).2.1 0 (by decide), ?_⟩
  exact (decode_spec rsDemo).2.2.2 (rsDemo.rows.get ⟨1, by decide⟩) 1 (by decide) (by decide)

/-- C4: the coercion helpers are total functions — any failure path ends in
the supplied default: the null value, a value whose stripped string form is
empty or the `"None"` sentinel, and any value `float()` cannot parse all
coerce to the default; `"42"` coerces to the integer 42 and `"3.14"` to 3
by truncation toward zero, not rounding (so `"-3.14"` gives -3). -/
theorem toNumber_total_spec :
    (∀ (v : PyVal) (df : ℚ) (di : ℤ),
      v = PyVal.none ∨ pyStrip (pyStr v) = "" ∨ pyStrip (pyStr v) = "None" ∨
        pyFloat v = Option.none →
      safe_float v df = df ∧ safe_int v di = di) ∧
    safe_int (PyVal.str "42") 0 = 42 ∧
    safe_int (PyVal.str "3.14") 0 = 3 ∧
    safe_int (PyVal.str "-3.14") 0 = -3 := by
  refine ⟨?_, by decide, by decide, by decide⟩
  intro v df di h
  by_cases hg : coerceGuard v = true
  · have hf : pyFloat v = Option.none := by
      rcases h with h | h | h | h
      · subst h
        simp [coerceGuard, pyTruthy] at hg
      · simp [coerceGuard, h] at hg
      · simp [coerceGuard, h] at hg
      · exact h
    constructor
    · simp [safe_float, hg, hf]
    · simp [safe_int, hg, hf]
  · constructor
    · simp [safe_float, hg]
    · simp [safe_int, hg]

/-- Witness for C4: the unparsable string `"abc"` and the padded sentinel
`" None "` both coerce to the supplied defaults. -/
theorem toNumber_total_spec_witness :
    safe_float (PyVal.str "abc") 7 = 7 ∧ safe_int (PyVal.str " None ") 5 = 5 := by
  refine ⟨(toNumber_total_spec.1 (PyVal.str "abc") 7 0
    (Or.inr (Or.inr (Or.inr (by decide))))).1,
    (toNumber_total_spec.1 (PyVal.str " None ") 0 5
    (Or.inr (Or.inr (Or.inl (by decide))))).2⟩

/-- C10: every falsy input — the null value, `False`, integer 0, float 0.0
and the empty string — takes the `val and ...` guard's short-circuit and
both helpers return the supplied default, so a genuine zero input is
reported as the default value. -/
theorem falsy_default_spec :
    (∀ (v : PyVal) (df : ℚ) (di : ℤ), pyTruthy v = false →
      safe_float v df = df ∧ safe_int v di = di) ∧
    safe_int (PyVal.int 0) 5 = 5 ∧
    safe_float (PyVal.float 0) 7 = 7 ∧
    safe_float PyVal.none 1 = 1 ∧
    safe_int (PyVal.str "") 2 = 2 ∧
    safe_int (PyVal.bool false) 3 = 3 := by
  refine ⟨?_, by decide, by decide, by decide, by decide, by decide⟩
  intro v df di h
  have hg : coerceGuard v = false := by simp [coerceGuard, h]
  constructor
  · simp [safe_float, hg]
  · simp [safe_int, hg]

/-- Witness for C10 at the falsy float `0.0` and falsy integer `0`. -/
theorem falsy_default_spec_witness :
    safe_float (PyVal.float 0) 9 = 9 ∧ safe_int (PyVal.int 0) 4 = 4 := by
  refine ⟨(falsy_default_spec.1 (PyVal.float 0) 9 0 (by decide)).1,
    (falsy_default_spec.1 (PyVal.int 0) 0 4 (by decide)).2⟩

/-- C5: with no identity store configured `get_username` returns the
identifier with zero network calls; with one configured and a successful
lookup it follows the `UserName or DisplayName or Emails[0].Value or
userid` priority chain, falling back to the identifier when no field
carries a truthy value (absent email list, empty email list, or a first
email without a truthy value). -/
theorem resolveOne_priority_spec (sid : String) (f : String → Except Unit UserResp)
    (uid : String) (r : UserResp) :
    get_username "" f uid = (uid, 0) ∧
    (sid ≠ "" → f uid = Except.ok r →
      ((r.userName.getD "" ≠ "" → get_username sid f uid = (r.userName.getD "", 1)) ∧
       (r.userName.getD "" = "" → r.displayName.getD "" ≠ "" →
         get_username sid f uid = (r.displayName.getD "", 1)) ∧
       (∀ e es, r.userName.getD "" = "" → r.displayName.getD "" = "" →
         r.emails = some (e :: es) → e.value.getD "" ≠ "" →
         get_username sid f uid = (e.value.getD "", 1)) ∧
       (r.userName.getD "" = "" → r.displayName.getD "" = "" →
         (r.emails = Option.none ∨ r.emails = some [] ∨
          (∃ es, r.emails = some (⟨Option.none⟩ :: es)) ∨
          (∃ es, r.emails = some (⟨some ""⟩ :: es))) →
         (get_username sid f uid).1 = uid))) := by
  constructor
  · simp [get_username]
  · intro hsid hf
    refine ⟨?_, ?_, ?_, ?_⟩
    · intro hu
      simp [get_username, hsid, hf, hu]
    · intro hu hd
      simp [get_username, hsid, hf, hu, hd]
    · intro e es hu hd he hv
      rcases hev : e.value with _ | v
      · rw [hev] at hv
        simp at hv
      · rw [hev] at hv
        simp only [Option.getD_some] at hv
        simp [get_username, hsid, hf, hu, hd, he, firstEmailValue, hev, pyOrStr, hv]
    · intro hu hd hcase
      rcases hcase with h | h | ⟨es, h⟩ | ⟨es, h⟩ <;>
        simp [get_username, hsid, hf, hu, hd, h, firstEmailValue, pyOrStr]

/-- Witness for C5: pass-through with zero calls when unconfigured, and
the username field when configured and present. -/
theorem resolveOne_priority_spec_witness :
    get_username "" lookupOkDemo "u-1" = ("u-1", 0) ∧
    get_username "dir-1" lookupOkDemo "u-1" = ("alice", 1) := by
  refine ⟨(resolveOne_priority_spec "dir-1" lookupOkDemo "u-1" userRespDemo).1, ?_⟩
  have h := ((resolveOne_priority_spec "dir-1" lookupOkDemo "u-1" userRespDemo).2
    (by decide) rfl).1 (by decide)
  simpa [userRespDemo] using h

/-- C6: `get_username` never propagates a lookup failure — whenever the
`describe_user` call raises, the identifier itself is returned, and the
unconfigured path returns it as well; the return type carries no error
case at all. -/
theorem resolveOne_never_fails (sid : String) (f : String → Except Unit UserResp)
    (uid : String) :
    (f uid = Except.error () → (get_username sid f uid).1 = uid) ∧
    (get_username "" f uid).1 = uid := by
  constructor
  · intro hf
    by_cases hsid : sid = ""
    · simp [get_username, hsid]
    · simp [get_username, hsid, hf]
  · simp [get_username]

/-- Witness for C6: a directory that raises on every lookup still yields
the identifier unchanged. -/
theorem resolveOne_never_fails_witness :
    (get_username "dir-1" lookupErrDemo "u-9").1 = "u-9" :=
  (resolveOne_never_fails "dir-1" lookupErrDemo "u-9").1 rfl

/-- C7: a configured override is returned with an empty listing-call
record; otherwise `get_tables` is called exactly once with `MaxResults`
equal to 1 and the first listed table's name is returned; a successful
listing with zero tables and a raising listing both collapse to the same
raised message, the backend error being swallowed. -/
theorem resolve_table_spec (override db : String)
    (getTables : ℕ → Except Unit (List GlueTable)) :
    (override ≠ "" → resolve_table_name override db getTables = (Except.ok override, [])) ∧
    (override = "" → ∀ t ts, getTables 1 = Except.ok (t :: ts) →
      resolve_table_name override db getTables = (Except.ok t.name, [1])) ∧
    (override = "" → getTables 1 = Except.ok [] →
      resolve_table_name override db getTables = (Except.error (noTablesMsg db), [1])) ∧
    (override = "" → ∀ e, getTables 1 = Except.error e →
      resolve_table_name override db getTables = (Except.error (noTablesMsg db), [1])) := by
  refine ⟨?_, ?_, ?_, ?_⟩
  · intro h
    simp [resolve_table_name, h]
  · intro h t ts hl
    simp [resolve_table_name, h, hl]
  · intro h hl
    simp [resolve_table_name, h, hl]
  · intro h e hl
    simp [resolve_table_name, h, hl]

/-- Witness for C7: the override short-circuits with no listing call; an
empty listing and a raising listing produce the identical failure; a
non-empty listing yields the first table's name with the `MaxResults=1`
call recorded. -/
theorem resolve_table_spec_witness :
    resolve_table_name "override_tbl" "db1" tablesEmptyDemo = (Except.ok "override_tbl", []) ∧
    resolve_table_name "" "db1" tablesEmptyDemo = (Except.error (noTablesMsg "db1"), [1]) ∧
    resolve_table_name "" "db1" tablesErrDemo = (Except.error (noTablesMsg "db1"), [1]) ∧
    resolve_table_name "" "db1" tablesOkDemo = (Except.ok "kiro_usage", [1]) := by
  refine ⟨(resolve_table_spec "override_tbl" "db1" tablesEmptyDemo).1 (by decide),
    (resolve_table_spec "" "db1" tablesEmptyDemo).2.2.1 rfl rfl,
    (resolve_table_spec "" "db1" tablesErrDemo).2.2.2 rfl () rfl, ?_⟩
  have h := (resolve_table_spec "" "db1" tablesOkDemo).2.1 rfl ⟨"kiro_usage"⟩ [] rfl
  simpa using h

/-- Association-list lookup over a keyed map of a list hits the image of
the looked-up key. -/
theorem lookup_map_eq (g : String → String) :
    ∀ (ids : List String) (uid : String), uid ∈ ids →
      (ids.map (fun u => (u, g u))).lookup uid = some (g uid) := by
  intro ids
  induction ids with
  | nil =>
    intro uid h
    cases h
  | cons a t ih =>
    intro uid h
    by_cases huid : uid = a
    · subst huid
      simp [List.lookup]
    · have hm : uid ∈ t := by
        rcases List.mem_cons.mp h with h1 | h1
        · exact absurd h1 huid
        · exact h1
      have hb : (uid == a) = false := by simp [huid]
      simp [List.lookup, hb, ih uid hm]

/-- C8: the batch resolver is the pointwise image of the single resolver —
its keys are exactly the requested identifiers in order, looking up any
requested identifier yields that identifier's single-resolution value (so
no requested key is missing), and its total backend-call count is the sum
of the per-identifier single-call counts (no bulk call exists). -/
theorem resolveBatch_spec (sid : String) (f : String → Except Unit UserResp)
    (ids : List String) :
    ((get_usernames_batch sid f ids).1.map Prod.fst = ids) ∧
    (∀ uid, uid ∈ ids →
      (get_usernames_batch sid f ids).1.lookup uid =
        some (get_username sid f uid).1) ∧
    ((get_usernames_batch sid f ids).2 =
      (ids.map (fun uid => (get_username sid f uid).2)).sum) := by
  refine ⟨?_, ?_, rfl⟩
  · simp [get_usernames_batch, List.map_map, Function.comp_def]
  · intro uid h
    exact lookup_map_eq (fun u => (get_username sid f u).1) ids uid h

/-- Witness for C8: both requested identifiers are present in the batch
result with their pointwise resolutions. -/
theorem resolveBatch_spec_witness :
    (get_usernames_batch "dir-1" lookupErrDemo ["u-1", "u-2"]).1.lookup "u-2" =
      some (get_username "dir-1" lookupErrDemo "u-2").1 ∧
    (get_usernames_batch "dir-1" lookupErrDemo ["u-1", "u-2"]).1.map Prod.fst =
      ["u-1", "u-2"] :=
  ⟨(resolveBatch_spec "dir-1" lookupErrDemo ["u-1", "u-2"]).2.1 "u-2" (by decide),
   (resolveBatch_spec "dir-1" lookupErrDemo ["u-1", "u-2"]).1⟩

/-- C9 (spec-modelled cache): starting from an empty entry, the first
`get` invokes the producer once; a second `get` within the TTL window
invokes it zero times and returns the first call's value; a later `get`
after the TTL has elapsed since insertion invokes the producer again. -/
theorem cacheLayer_ttl_spec {α : Type} (ttl t1 t2 t3 : ℕ) (producer : Unit → α)
    (h12 : t2 - t1 ≤ ttl) (h13 : ttl < t3 - t1) :
    (cacheGet ttl t1 producer ⟨Option.none⟩).2.2 = 1 ∧
    (cacheGet ttl t2 producer (cacheGet ttl t1 producer ⟨Option.none⟩).2.1).2.2 = 0 ∧
    (cacheGet ttl t2 producer (cacheGet ttl t1 producer ⟨Option.none⟩).2.1).1 =
      (cacheGet ttl t1 producer ⟨Option.none⟩).1 ∧
    (cacheGet ttl t3 producer
      (cacheGet ttl t2 producer (cacheGet ttl t1 producer ⟨Option.none⟩).2.1).2.1).2.2 = 1 := by
  have h2 : ¬(ttl < t2 - t1) := by omega
  simp [cacheGet, h2, h13]

/-- Witness for C9 with TTL 10: a hit at time 5 after a miss at time 0,
then a fresh producer call at time 20. -/
theorem cacheLayer_ttl_spec_witness :
    (cacheGet 10 0 prodDemo ⟨Option.none⟩).2.2 = 1 ∧
    (cacheGet 10 5 prodDemo (cacheGet 10 0 prodDemo ⟨Option.none⟩).2.1).2.2 = 0 ∧
    (cacheGet 10 5 prodDemo (cacheGet 10 0 prodDemo ⟨Option.none⟩).2.1).1 =
      (cacheGet 10 0 prodDemo ⟨Option.none⟩).1 ∧
    (cacheGet 10 20 prodDemo
      (cacheGet 10 5 prodDemo (cacheGet 10 0 prodDemo ⟨Option.none⟩).2.1).2.1).2.2 = 1 :=
  cacheLayer_ttl_spec 10 0 5 20 prodDemo (by decide) (by decide)
